import Mathlib

/-!
# PyDebugAttach: the precompiled header `stdafx.h`

`src/Python/Product/PyDebugAttach/stdafx.h` carries no executable code; what it
fixes is the compilation environment of the attach helper: which headers are
pulled in, in which order, and under which macro definitions.

The embedding keeps the file as it is on disk (`stdafx_h`, one string per
physical line) and reads it with a small line lexer (`parseLine`): `//`
comments are cut, blank lines are dropped, a line whose first non-blank
character is `#` is a preprocessor directive, anything else is ordinary
C++ text.  The lexer does not know `/* */` comments or backslash line
splicing (the header uses neither); it would class such lines as C++ text.
-/

namespace PyDebugAttach

/-! ## The source text -/

/-- The text of `stdafx.h`, one entry per physical line (38 lines). -/
def stdafx_h : List String := [
  "// Python Tools for Visual Studio",
  "// Copyright(c) Microsoft Corporation",
  "// All rights reserved.",
  "//",
  "// Licensed under the Apache License, Version 2.0 (the License); you may not use",
  "// this file except in compliance with the License. You may obtain a copy of the",
  "// License at http://www.apache.org/licenses/LICENSE-2.0",
  "//",
  "// THIS CODE IS PROVIDED ON AN  *AS IS* BASIS, WITHOUT WARRANTIES OR CONDITIONS",
  "// OF ANY KIND, EITHER EXPRESS OR IMPLIED, INCLUDING WITHOUT LIMITATION ANY",
  "// IMPLIED WARRANTIES OR CONDITIONS OF TITLE, FITNESS FOR A PARTICULAR PURPOSE,",
  "// MERCHANTABLITY OR NON-INFRINGEMENT.",
  "//",
  "// See the Apache Version 2.0 License for specific language governing",
  "// permissions and limitations under the License.",
  "",
  "// stdafx.h : include file for standard system include files,",
  "// or project specific include files that are used frequently, but",
  "// are changed infrequently",
  "//",
  "",
  "#pragma once",
  "",
  "#include \"targetver.h\"",
  "",
  "#include <cstdint>",
  "#include <fstream>",
  "#include <string>",
  "#include <unordered_set>",
  "#include <unordered_map>",
  "",
  "#define WIN32_LEAN_AND_MEAN",
  "#include <windows.h>",
  "#include <psapi.h>",
  "#include <strsafe.h>",
  "#include <tlhelp32.h>",
  "#include <winsock.h>",
  "#include <winternl.h>"
]

/-! ## Line lexer -/

/-- Horizontal white space inside a line. -/
def isBlank (c : Char) : Bool :=
  c == ' ' || c == '\t' || c == '\r'

/-- Characters of an identifier or of a directive keyword. -/
def isIdentChar (c : Char) : Bool :=
  c.isAlphanum || c == '_'

/-- Cuts a `//` comment off a line.  The flag says whether the scan is inside
a double-quoted token, where `//` does not open a comment. -/
def stripComment : Bool → List Char → List Char
  | _, [] => []
  | false, '/' :: '/' :: _ => []
  | q, '"' :: cs => '"' :: stripComment (!q) cs
  | q, c :: cs => c :: stripComment q cs

/-- Drops leading and trailing white space. -/
def trimBlanks (cs : List Char) : List Char :=
  ((cs.dropWhile isBlank).reverse.dropWhile isBlank).reverse

/-- A preprocessor directive, by keyword. -/
inductive Directive where
  /-- `#pragma once` -/
  | pragmaOnce
  /-- any other `#pragma` -/
  | pragma (text : String)
  /-- `#include "file"` -/
  | includeQuoted (file : String)
  /-- `#include <file>` -/
  | includeAngled (file : String)
  /-- `#define name body`; for a function-like definition the body starts
  with the parameter list -/
  | define (name : String) (body : String)
  /-- `#undef name` -/
  | undef (name : String)
  /-- every other directive (`#if`, `#ifdef`, `#else`, `#error`, ...) and
  malformed ones -/
  | other (keyword : String) (text : String)
  deriving DecidableEq, Repr

/-- A line that survives comment and blank removal. -/
inductive SourceLine where
  /-- a preprocessor directive -/
  | directive (d : Directive)
  /-- C++ text: declarations, definitions, statements -/
  | code (text : String)
  deriving DecidableEq, Repr

/-- The operand of `#include`: `<file>` or `"file"`, nothing after it. -/
def parseInclude (rest : List Char) : Directive :=
  match rest with
  | '<' :: cs =>
    if cs.dropWhile (fun c => c != '>') == ['>'] then
      Directive.includeAngled (String.mk (cs.takeWhile (fun c => c != '>')))
    else Directive.other "include" (String.mk rest)
  | '"' :: cs =>
    if cs.dropWhile (fun c => c != '"') == ['"'] then
      Directive.includeQuoted (String.mk (cs.takeWhile (fun c => c != '"')))
    else Directive.other "include" (String.mk rest)
  | _ => Directive.other "include" (String.mk rest)

/-- Reads the directive that follows the `#`. -/
def parseDirective (afterHash : List Char) : Directive :=
  let body := afterHash.dropWhile isBlank
  let keyword := String.mk (body.takeWhile isIdentChar)
  let rest := trimBlanks (body.dropWhile isIdentChar)
  if keyword = "pragma" then
    if rest = "once".toList then Directive.pragmaOnce
    else Directive.pragma (String.mk rest)
  else if keyword = "include" then parseInclude rest
  else if keyword = "define" then
    Directive.define (String.mk (rest.takeWhile isIdentChar))
      (String.mk (trimBlanks (rest.dropWhile isIdentChar)))
  else if keyword = "undef" then Directive.undef (String.mk (rest.takeWhile isIdentChar))
  else Directive.other keyword (String.mk rest)

/-- Lexes one physical line: `none` for a blank or comment-only line. -/
def parseLine (line : String) : Option SourceLine :=
  match trimBlanks (stripComment false line.toList) with
  | [] => none
  | '#' :: cs => some (SourceLine.directive (parseDirective cs))
  | cs => some (SourceLine.code (String.mk cs))

/-! ## The file as a directive list -/

/-- The non-comment, non-blank lines of `stdafx.h`, in file order. -/
def sourceLines : List SourceLine :=
  stdafx_h.filterMap parseLine

/-- The directive on a line, if the line is one. -/
def SourceLine.directive? : SourceLine → Option Directive
  | SourceLine.directive d => some d
  | SourceLine.code _ => none

/-- The ordered directive list of `stdafx.h`. -/
def directives : List Directive :=
  sourceLines.filterMap SourceLine.directive?

/-- The lines of `stdafx.h` that are C++ text rather than directives. -/
def codeLines : List SourceLine :=
  sourceLines.filter (fun l => l.directive?.isNone)

/-- The header a directive includes, if it is an `#include`. -/
def Directive.header? : Directive → Option String
  | Directive.includeQuoted f => some f
  | Directive.includeAngled f => some f
  | _ => none

/-- The include list of `stdafx.h`: the included header names, in order. -/
def includes : List String :=
  directives.filterMap Directive.header?

/-! ## Order in the directive list -/

/-- A definition of the macro `name`, whatever its body. -/
def Directive.defines (name : String) : Directive → Bool
  | Directive.define n _ => n == name
  | _ => false

/-- An `#undef` of the macro `name`. -/
def Directive.undefines (name : String) : Directive → Bool
  | Directive.undef n => n == name
  | _ => false

/-- An inclusion of the header `file`, in either form. -/
def Directive.includesHeader (file : String) (d : Directive) : Bool :=
  d.header? == some file

/-- The directives strictly before the first one that satisfies `p`
(all of them when none does). -/
def upToFirst (p : Directive → Bool) (l : List Directive) : List Directive :=
  l.takeWhile (fun d => !p d)

/-- The directives strictly after the first one that satisfies `p`
(none when no directive does). -/
def afterFirst (p : Directive → Bool) (l : List Directive) : List Directive :=
  (l.dropWhile (fun d => !p d)).drop 1

/-- In `l` a directive satisfying `p` comes before every directive satisfying
`q`: no `q` stands before the first `p`, and a `q` stands after it (so both
occur). -/
def ComesBefore (p q : Directive → Bool) (l : List Directive) : Prop :=
  (∀ d ∈ upToFirst p l, q d = false) ∧ (∃ d ∈ afterFirst p l, q d = true)

instance (p q : Directive → Bool) (l : List Directive) : Decidable (ComesBefore p q l) := by
  unfold ComesBefore
  infer_instance

/-! ## Shape of the file -/

/-- The directive list of `stdafx.h`, written out. -/
theorem directives_eq :
    directives =
      [Directive.pragmaOnce,
       Directive.includeQuoted "targetver.h",
       Directive.includeAngled "cstdint",
       Directive.includeAngled "fstream",
       Directive.includeAngled "string",
       Directive.includeAngled "unordered_set",
       Directive.includeAngled "unordered_map",
       Directive.define "WIN32_LEAN_AND_MEAN" "",
       Directive.includeAngled "windows.h",
       Directive.includeAngled "psapi.h",
       Directive.includeAngled "strsafe.h",
       Directive.includeAngled "tlhelp32.h",
       Directive.includeAngled "winsock.h",
       Directive.includeAngled "winternl.h"] := by
  decide

/-- The include list of `stdafx.h`, written out. -/
theorem includes_eq :
    includes =
      ["targetver.h", "cstdint", "fstream", "string", "unordered_set", "unordered_map",
       "windows.h", "psapi.h", "strsafe.h", "tlhelp32.h", "winsock.h", "winternl.h"] := by
  decide

/-- C1: every non-comment, non-blank line of `stdafx.h` is a preprocessor
directive (no line is C++ text, so the file holds no function body, no type
or object definition and no statement); every directive is an `#include`
except one `#pragma once` and one definition of `WIN32_LEAN_AND_MEAN` with an
empty body, so there is no conditional directive either. -/
theorem stdafx_only_directives :
    sourceLines = directives.map SourceLine.directive ∧
    codeLines = [] ∧
    (∀ d ∈ directives, d.header?.isSome = true ∨ d = Directive.pragmaOnce ∨
        d = Directive.define "WIN32_LEAN_AND_MEAN" "") ∧
    directives.count Directive.pragmaOnce = 1 ∧
    directives.count (Directive.define "WIN32_LEAN_AND_MEAN" "") = 1 ∧
    (directives.filter (fun d => d.header?.isNone)).length = 2 := by
  decide

/-- C2: each of the five Windows headers the specification names and each of
the four standard-library headers it names (file streams, strings, hash set,
hash map) is included by `stdafx.h`, as `#include <...>`, and occurs exactly
once in the include list. -/
theorem stdafx_named_headers_once :
    ∀ h ∈ ["windows.h", "psapi.h", "tlhelp32.h", "winternl.h", "winsock.h",
           "fstream", "string", "unordered_set", "unordered_map"],
      Directive.includeAngled h ∈ directives ∧ includes.count h = 1 := by
  decide

/-- C2 at `winsock.h`. -/
theorem stdafx_named_headers_once_witness :
    "winsock.h" ∈ ["windows.h", "psapi.h", "tlhelp32.h", "winternl.h", "winsock.h",
           "fstream", "string", "unordered_set", "unordered_map"] ∧
    Directive.includeAngled "winsock.h" ∈ directives ∧ includes.count "winsock.h" = 1 :=
  ⟨by decide, stdafx_named_headers_once "winsock.h" (by decide)⟩

/-- C3 as stated fails: `stdafx.h` includes headers outside the enumeration
(`cstdint` and `strsafe.h`). -/
theorem stdafx_includes_outside_enumeration :
    ¬ (∀ h ∈ includes,
        h ∈ ["targetver.h", "windows.h", "psapi.h", "tlhelp32.h", "winternl.h", "winsock.h",
             "fstream", "string", "unordered_set", "unordered_map"]) := by
  decide

/-- C3, amended: every `#include` of `stdafx.h` names `targetver.h`, one of
the six Windows headers `windows.h`, `psapi.h`, `strsafe.h`, `tlhelp32.h`,
`winternl.h`, `winsock.h`, or one of the five standard-library headers
`cstdint`, `fstream`, `string`, `unordered_set`, `unordered_map`; each of
these twelve is included, and the two added to the enumeration (`cstdint`,
`strsafe.h`) are the only ones beyond it. -/
theorem stdafx_includes_enumerated :
    (∀ h ∈ includes,
        h ∈ ["targetver.h", "windows.h", "psapi.h", "strsafe.h", "tlhelp32.h", "winternl.h",
             "winsock.h", "cstdint", "fstream", "string", "unordered_set", "unordered_map"]) ∧
    (∀ h ∈ ["targetver.h", "windows.h", "psapi.h", "strsafe.h", "tlhelp32.h", "winternl.h",
             "winsock.h", "cstdint", "fstream", "string", "unordered_set", "unordered_map"],
        h ∈ includes) ∧
    includes.filter (fun h => !decide (h ∈
        ["targetver.h", "windows.h", "psapi.h", "tlhelp32.h", "winternl.h", "winsock.h",
         "fstream", "string", "unordered_set", "unordered_map"])) = ["cstdint", "strsafe.h"] := by
  decide

/-- C4: in the directive list of `stdafx.h` the (only) definition of
`WIN32_LEAN_AND_MEAN` comes before the inclusion of `windows.h` and of every
other Windows SDK header (`psapi.h`, `strsafe.h`, `tlhelp32.h`, `winsock.h`,
`winternl.h`); no directive undefines the macro; and `winsock.h` is included
explicitly, after `windows.h`. -/
theorem stdafx_lean_and_mean_before_windows :
    directives.filter (Directive.defines "WIN32_LEAN_AND_MEAN") =
      [Directive.define "WIN32_LEAN_AND_MEAN" ""] ∧
    (∀ h ∈ ["windows.h", "psapi.h", "strsafe.h", "tlhelp32.h", "winsock.h", "winternl.h"],
      ComesBefore (Directive.defines "WIN32_LEAN_AND_MEAN") (Directive.includesHeader h)
        directives) ∧
    (∀ d ∈ directives, Directive.undefines "WIN32_LEAN_AND_MEAN" d = false) ∧
    Directive.includeAngled "winsock.h" ∈ directives ∧
    ComesBefore (Directive.includesHeader "windows.h") (Directive.includesHeader "winsock.h")
      directives := by
  decide

/-- C5: in the directive list of `stdafx.h`, `#pragma once` is the first
directive and `#include "targetver.h"` is the first inclusion; it comes
before the inclusion of every other header, among them each standard-library
header and each Windows header of the file (in particular `windows.h`). -/
theorem stdafx_targetver_first :
    directives.head? = some Directive.pragmaOnce ∧
    (directives.filter (fun d => d.header?.isSome)).head? =
      some (Directive.includeQuoted "targetver.h") ∧
    includes.count "targetver.h" = 1 ∧
    (∀ h ∈ includes, h ≠ "targetver.h" →
      ComesBefore (Directive.includesHeader "targetver.h") (Directive.includesHeader h)
        directives) ∧
    (∀ h ∈ ["cstdint", "fstream", "string", "unordered_set", "unordered_map",
            "windows.h", "psapi.h", "strsafe.h", "tlhelp32.h", "winsock.h", "winternl.h"],
      ComesBefore (Directive.includesHeader "targetver.h") (Directive.includesHeader h)
        directives) := by
  decide

end PyDebugAttach
